import Mathlib

/-!
Verification of the aerowake fatigue-tool core against its specification.

The development shallowly embeds the relevant Python modules:
  * `core/parameters.py`   — configuration dataclasses and risk thresholds
  * `core/sleep_quality.py` — the sleep quality engine
  * `core/workload.py`     — the workload model
  * `api/api_server.py`    — risk classification and duty-time validation helpers

Modelling conventions:
  * UTC timestamps are whole minutes since an arbitrary epoch (`Int`);
    timezones are fixed UTC offsets in minutes (the source uses pytz zone
    objects; fixed offsets model the arithmetic the engine performs).
  * Python floats are modelled as exact rationals (`ℚ`); every constant in
    the source is a short decimal, so the embedding is the intended value.
  * The transcendental `math.cos` appearing in the sleep-onset-latency
    gate is abstracted as an explicit function argument `cosine : ℚ → ℚ`
    applied to the turn fraction `(h - 19) / 24`; every statement proved
    below holds for an arbitrary such function, because the source clamps
    the latency to the interval `[5, 60]` minutes.
  * Human-readable warning messages are modelled as tags carrying the
    numeric payload; the display text is pure formatting.
-/

namespace Aerowake

/-- A UTC timestamp in whole minutes since an arbitrary epoch
(`datetime` in the source). -/
abbrev DateTime := Int

/-- A timezone modelled as a fixed UTC offset in minutes
(`pytz.timezone(...)` in the source). -/
abbrev Timezone := Int

/-- Minute of the local day, as fractional hours (`dt.hour + dt.minute / 60.0`
after `astimezone` in the source). -/
def localHourOfDay (t : DateTime) (tz : Timezone) : ℚ :=
  (((t + tz) % 1440 : Int) : ℚ) / 60

/-- Local calendar date as a day index (`dt.date()` comparisons in the source). -/
def localDate (t : DateTime) (tz : Timezone) : Int :=
  (t + tz) / 1440

/-- `core/parameters.py` `EASAFatigueFramework` — the fields read by the
sleep quality engine (the remaining regulatory constants are unused here). -/
structure EASAFatigueFramework where
  wocl_start_hour : Int
  wocl_end_hour : Int

/-- Default `EASAFatigueFramework()` values. -/
def defaultEASAFramework : EASAFatigueFramework :=
  { wocl_start_hour := 2, wocl_end_hour := 5 }

/-- `core/parameters.py` `SleepQualityParameters` (all fields of the dataclass). -/
structure SleepQualityParameters where
  quality_home : ℚ
  quality_hotel_quiet : ℚ
  quality_hotel_typical : ℚ
  quality_hotel_airport : ℚ
  quality_crew_rest_facility : ℚ
  max_circadian_quality_penalty : ℚ
  early_wake_penalty_per_hour : ℚ
  late_sleep_start_penalty_per_hour : ℚ
  sol_base_minutes : ℚ
  sol_wmz_amplitude : ℚ
  nap_efficiency_under_10 : ℚ
  nap_efficiency_10_20 : ℚ
  nap_efficiency_20_30 : ℚ
  nap_efficiency_30_60 : ℚ
  nap_efficiency_over_60 : ℚ
  first_night_sol_extra_minutes : ℚ
  second_night_sol_extra_minutes : ℚ
  split_efficiency_4h_plus : ℚ
  split_efficiency_3h_plus : ℚ
  split_efficiency_under_3h : ℚ
  early_report_hour : ℚ
  alarm_anxiety_penalty : ℚ

/-- Default `SleepQualityParameters()` values from `core/parameters.py`. -/
def defaultSleepQualityParameters : SleepQualityParameters :=
  { quality_home := 1.0
    quality_hotel_quiet := 0.88
    quality_hotel_typical := 0.85
    quality_hotel_airport := 0.82
    quality_crew_rest_facility := 0.70
    max_circadian_quality_penalty := 0.25
    early_wake_penalty_per_hour := 0.05
    late_sleep_start_penalty_per_hour := 0.03
    sol_base_minutes := 15.0
    sol_wmz_amplitude := 0.8
    nap_efficiency_under_10 := 0.75
    nap_efficiency_10_20 := 0.90
    nap_efficiency_20_30 := 0.92
    nap_efficiency_30_60 := 0.88
    nap_efficiency_over_60 := 0.85
    first_night_sol_extra_minutes := 12.0
    second_night_sol_extra_minutes := 5.0
    split_efficiency_4h_plus := 0.92
    split_efficiency_3h_plus := 0.85
    split_efficiency_under_3h := 0.78
    early_report_hour := 6.0
    alarm_anxiety_penalty := 0.97 }

/-- `core/parameters.py` `BorbelyParameters` — the pinch-event detection
thresholds (the many other two-process constants are not read by any claim
settled here and are omitted from the record). -/
structure BorbelyParameters where
  pinch_circadian_threshold : ℚ
  pinch_sleep_pressure_threshold : ℚ

/-- Default `BorbelyParameters()` pinch thresholds. -/
def defaultBorbelyParameters : BorbelyParameters :=
  { pinch_circadian_threshold := 0.40, pinch_sleep_pressure_threshold := 0.70 }

/-- `core/parameters.py` `RiskThresholds.thresholds`: an insertion-ordered
dict of `level -> (low, high)`, modelled as an association list. -/
structure RiskThresholds where
  thresholds : List (String × ℚ × ℚ)

/-- The iteration inside `RiskThresholds.classify`: first band with
`low <= performance < high` wins, otherwise `extreme`. -/
def classifyBands : List (String × ℚ × ℚ) → ℚ → String
  | [], _ => "extreme"
  | (level, lo, hi) :: rest, performance =>
    if lo ≤ performance ∧ performance < hi then level
    else classifyBands rest performance

/-- `core/parameters.py` `RiskThresholds.classify` (returns `unknown` for `None`). -/
def RiskThresholds.classify (rt : RiskThresholds) : Option ℚ → String
  | none => "unknown"
  | some performance => classifyBands rt.thresholds performance

/-- Default `RiskThresholds()` bands. -/
def defaultRiskThresholds : RiskThresholds :=
  { thresholds :=
      [("low", 75, 100), ("moderate", 65, 75), ("high", 55, 65),
       ("critical", 45, 55), ("extreme", 0, 45)] }

/-- The risk bands of `ModelConfig.conservative_config()`. -/
def conservativeRiskThresholds : RiskThresholds :=
  { thresholds :=
      [("low", 80, 100), ("moderate", 70, 80), ("high", 60, 70),
       ("critical", 50, 60), ("extreme", 0, 50)] }

/-- The risk bands of `ModelConfig.liberal_config()`. -/
def liberalRiskThresholds : RiskThresholds :=
  { thresholds :=
      [("low", 70, 100), ("moderate", 60, 70), ("high", 50, 60),
       ("critical", 40, 50), ("extreme", 0, 40)] }

/-- `api/api_server.py` `classify_risk`: the hard-coded risk classifier used
when serializing duty responses. -/
def classify_risk : Option ℚ → String
  | none => "unknown"
  | some performance =>
    if performance ≥ 75 then "low"
    else if performance ≥ 65 then "moderate"
    else if performance ≥ 55 then "high"
    else if performance ≥ 45 then "critical"
    else "extreme"

/-- The risk computation inside `api/api_server.py` `_build_duty_response`:
landing performance when present, else minimum performance, classified by
`classify_risk`. -/
def dutyRiskLevel (landing_performance min_performance : Option ℚ) : String :=
  classify_risk
    (match landing_performance with
     | some v => some v
     | none => min_performance)

/-- `models/data_models.py` `FlightPhase` (the enum members used by
`core/workload.py`; the defining module is not part of the analyzed sources). -/
inductive FlightPhase where
  | preflight
  | taxi_out
  | takeoff
  | climb
  | cruise
  | descent
  | approach
  | landing
  | taxi_in
  | ground_turnaround
deriving DecidableEq

/-- `core/workload.py` `WorkloadParameters`. -/
structure WorkloadParameters where
  WORKLOAD_MULTIPLIERS : FlightPhase → ℚ
  SECTOR_PENALTY_RATE : ℚ
  RECOVERY_THRESHOLD_HOURS : ℚ
  TURNAROUND_RECOVERY_RATE : ℚ
  TRAINING_WORKLOAD : String → ℚ

/-- Default `WORKLOAD_MULTIPLIERS` table from `core/workload.py`. -/
def defaultWorkloadMultipliers : FlightPhase → ℚ
  | .preflight => 1.1
  | .taxi_out => 1.0
  | .takeoff => 1.8
  | .climb => 1.3
  | .cruise => 0.8
  | .descent => 1.2
  | .approach => 1.5
  | .landing => 2.0
  | .taxi_in => 1.0
  | .ground_turnaround => 1.2

/-- Default `TRAINING_WORKLOAD` lookup from `core/workload.py`
(`dict.get` with default `1.0` in `get_training_multiplier`). -/
def defaultTrainingWorkload (duty_type_value : String) : ℚ :=
  if duty_type_value = "simulator" then 1.3
  else if duty_type_value = "ground_training" then 0.7
  else 1.0

/-- Default `WorkloadParameters()` values. -/
def defaultWorkloadParameters : WorkloadParameters :=
  { WORKLOAD_MULTIPLIERS := defaultWorkloadMultipliers
    SECTOR_PENALTY_RATE := 0.15
    RECOVERY_THRESHOLD_HOURS := 2.0
    TURNAROUND_RECOVERY_RATE := 0.3
    TRAINING_WORKLOAD := defaultTrainingWorkload }

/-- `core/workload.py` `WorkloadModel.get_phase_multiplier`
(total lookup, so the `dict.get` default `1.0` is unreachable). -/
def get_phase_multiplier (params : WorkloadParameters) (phase : FlightPhase) : ℚ :=
  params.WORKLOAD_MULTIPLIERS phase

/-- `core/workload.py` `WorkloadModel.get_sector_multiplier`. -/
def get_sector_multiplier (params : WorkloadParameters) (sector_number : Int) : ℚ :=
  1.0 + ((sector_number : ℚ) - 1) * params.SECTOR_PENALTY_RATE

/-- `core/workload.py` `WorkloadModel.get_combined_multiplier`. -/
def get_combined_multiplier (params : WorkloadParameters)
    (phase : FlightPhase) (sector_number : Int) : ℚ :=
  get_phase_multiplier params phase * get_sector_multiplier params sector_number

/-- `core/workload.py` `WorkloadModel.get_training_multiplier`. -/
def get_training_multiplier (params : WorkloadParameters) (duty_type_value : String) : ℚ :=
  params.TRAINING_WORKLOAD duty_type_value

/-- Modelled from the spec: pinch-event detection. The sampling loop of
`BorbelyFatigueModel` is not among the analyzed sources (only the thresholds
it reads, `BorbelyParameters.pinch_circadian_threshold` and
`BorbelyParameters.pinch_sleep_pressure_threshold` in `core/parameters.py`,
are); per the spec a pinch is flagged at a sample exactly when the circadian
component is below the low-alertness threshold and, simultaneously, the
homeostatic pressure is above the high-pressure threshold. -/
def isPinchEvent (params : BorbelyParameters) (circadian homeostatic : ℚ) : Bool :=
  decide (circadian < params.pinch_circadian_threshold) &&
  decide (homeostatic > params.pinch_sleep_pressure_threshold)

/-- The configuration slice read by `SleepQualityEngine.__init__`
(`config.easa_framework` and `config.sleep_quality_params`). -/
structure SleepQualityConfig where
  easa_framework : EASAFatigueFramework
  sleep_quality_params : SleepQualityParameters

/-- The default `ModelConfig.default_easa_config()` restricted to the slice
the sleep quality engine reads. -/
def defaultSleepQualityConfig : SleepQualityConfig :=
  { easa_framework := defaultEASAFramework
    sleep_quality_params := defaultSleepQualityParameters }

/-- `core/sleep_quality.py` `SleepQualityEngine.MAX_REALISTIC_SLEEP`. -/
def MAX_REALISTIC_SLEEP : ℚ := 10.0

/-- `core/sleep_quality.py` `SleepQualityEngine.LOCATION_EFFICIENCY`
(a dict lookup with default `0.85` for unknown locations). -/
def LOCATION_EFFICIENCY (location : String) : ℚ :=
  if location = "home" then 0.95
  else if location = "hotel" then 0.88
  else if location = "crew_rest" then 0.70
  else if location = "airport_hotel" then 0.85
  else if location = "crew_house" then 0.90
  else 0.85

/-- Step 7a of `calculate_sleep_quality`: the duration-banded nap efficiency
modifier and its band label. -/
def napEfficiencyBand (sq_params : SleepQualityParameters) (nap_minutes : ℚ) :
    ℚ × String :=
  if nap_minutes ≤ 10 then (sq_params.nap_efficiency_under_10, "≤10 min (light)")
  else if nap_minutes ≤ 20 then (sq_params.nap_efficiency_10_20, "10-20 min (optimal)")
  else if nap_minutes ≤ 30 then (sq_params.nap_efficiency_20_30, "20-30 min (SWS entry)")
  else if nap_minutes ≤ 60 then (sq_params.nap_efficiency_30_60, "30-60 min (inertia risk)")
  else (sq_params.nap_efficiency_over_60, ">60 min (full cycle)")

/-- `core/sleep_quality.py` `SleepQualityEngine._calculate_wocl_overlap`:
hours of the sleep window overlapping the WOCL window (02:00 to 06:00) in
the governing biological timezone, with the wrap-around branch for windows
whose local end hour precedes the start hour or that cross a calendar date. -/
def calculate_wocl_overlap (easa : EASAFatigueFramework)
    (sleep_start sleep_end : DateTime) (location_timezone : Timezone)
    (biological_timezone : Option Timezone) : ℚ :=
  let WOCL_START : ℚ := (easa.wocl_start_hour : ℚ)
  let WOCL_END : ℚ := (easa.wocl_end_hour : ℚ) + 1
  let wocl_tz := biological_timezone.getD location_timezone
  let sleep_start_hour := localHourOfDay sleep_start wocl_tz
  let sleep_end_hour := localHourOfDay sleep_end wocl_tz
  if sleep_end_hour < sleep_start_hour ∨
      localDate sleep_end wocl_tz > localDate sleep_start wocl_tz then
    (if sleep_start_hour < WOCL_END then
      let day1_overlap_start := max sleep_start_hour WOCL_START
      let day1_overlap_end := min 24 WOCL_END
      if day1_overlap_start < day1_overlap_end then
        day1_overlap_end - day1_overlap_start
      else 0
    else 0) +
    (if sleep_end_hour > WOCL_START then
      let day2_overlap_start := max 0 WOCL_START
      let day2_overlap_end := min sleep_end_hour WOCL_END
      if day2_overlap_start < day2_overlap_end then
        day2_overlap_end - day2_overlap_start
      else 0
    else 0)
  else
    if sleep_start_hour < WOCL_END ∧ sleep_end_hour > WOCL_START then
      max 0 (min sleep_end_hour WOCL_END - max sleep_start_hour WOCL_START)
    else 0

/-- Step 4 of `calculate_sleep_quality`: the WOCL alignment factor, a bonus
for sleep substantially covering the WOCL window and never a penalty. -/
def woclBoost (wocl_overlap actual_duration : ℚ) : ℚ :=
  if wocl_overlap ≥ 2 ∧ actual_duration > 0.5 then 1.05
  else if wocl_overlap ≥ 1 ∧ actual_duration > 0.5 then 1.02
  else 1.0

/-- Step 5 of `calculate_sleep_quality`: late-onset penalty bands combined
with the distance-weighted Wake Maintenance Zone penalty by `min`. -/
def lateOnsetPenalty (sleep_start_hour : ℚ) : ℚ :=
  let base :=
    if 1 ≤ sleep_start_hour ∧ sleep_start_hour < 4 then 0.93
    else if 0 ≤ sleep_start_hour ∧ sleep_start_hour < 1 then 0.97
    else 1.0
  if 17 ≤ sleep_start_hour ∧ sleep_start_hour < 21 then
    let wmz_center : ℚ := 19.0
    let wmz_distance := |sleep_start_hour - wmz_center| / 2.0
    let wmz_penalty := 0.93 + 0.07 * min 1.0 wmz_distance
    min base wmz_penalty
  else base

/-- Step 6 of `calculate_sleep_quality`: recovery sleep boost from proximity
to the previous duty end (non-nap sleep only). -/
def recoveryBoostFactor (hours_since_duty : Option ℚ) (is_nap : Bool) : ℚ :=
  match hours_since_duty with
  | some h =>
    if h < 2 ∧ ¬ is_nap then 1.05
    else if h < 4 ∧ ¬ is_nap then 1.03
    else 1.0
  | none => 1.0

/-- Step 7 of `calculate_sleep_quality`: time pressure factor from the gap
between sleep end and the next event. -/
def timePressureFactor (hours_until_duty : ℚ) : ℚ :=
  if hours_until_duty < 1.5 then 0.93
  else if hours_until_duty < 3 then 0.96
  else if hours_until_duty < 6 then 0.98
  else 1.0

/-- Step 8a, `SleepQualityEngine._calculate_sleep_onset_latency`: sleep onset
latency in minutes. `cosine` abstracts `math.cos` applied to the turn
fraction of the `2 * pi * (h - 19) / 24` gate angle; the result is clamped
to `[5, 60]` minutes whatever `cosine` returns. -/
def calculate_sleep_onset_latency (cosine : ℚ → ℚ)
    (sq_params : SleepQualityParameters)
    (sleep_start_hour sleep_duration_hours : ℚ) (is_nap : Bool) : ℚ :=
  let base_sol := sq_params.sol_base_minutes
  let wmz_peak : ℚ := 19.0
  let circadian_gate :=
    max 0.2 (1.0 + sq_params.sol_wmz_amplitude * cosine ((sleep_start_hour - wmz_peak) / 24))
  let sleep_pressure_proxy :=
    if is_nap then 0.6
    else max 0.3 (min 1.5 (sleep_duration_hours / 8.0))
  max 5.0 (min 60.0 (base_sol * circadian_gate / sleep_pressure_proxy))

/-- Step 8b of `calculate_sleep_quality`: first-night / second-night extra
sleep onset latency in a novel environment (non-nap sleep only). -/
def firstNightExtra (sq_params : SleepQualityParameters)
    (is_first_layover_night is_second_layover_night is_nap : Bool) : ℚ :=
  if is_first_layover_night ∧ ¬ is_nap then sq_params.first_night_sol_extra_minutes
  else if is_second_layover_night ∧ ¬ is_nap then sq_params.second_night_sol_extra_minutes
  else 0.0

/-- Step 8c of `calculate_sleep_quality`: anticipatory arousal penalty for
early next-morning reports. -/
def alarmAnxietyFactor (sq_params : SleepQualityParameters)
    (next_report_hour : Option ℚ) : ℚ :=
  match next_report_hour with
  | some h => if h < sq_params.early_report_hour then sq_params.alarm_anxiety_penalty else 1.0
  | none => 1.0

/-- Step 8d of `calculate_sleep_quality`: split sleep modifier banded by the
shortest fragment length (non-nap sleep only). -/
def splitSleepModifier (sq_params : SleepQualityParameters)
    (is_split_sleep is_nap : Bool) (split_block_min_hours : ℚ) : ℚ :=
  if is_split_sleep ∧ ¬ is_nap then
    if split_block_min_hours ≥ 4.0 then sq_params.split_efficiency_4h_plus
    else if split_block_min_hours ≥ 3.0 then sq_params.split_efficiency_3h_plus
    else sq_params.split_efficiency_under_3h
  else 1.0

/-- Step 9 of `calculate_sleep_quality`: clamp the combined multiplicative
efficiency to `[0.70, 1.0]`. -/
def clampEfficiency (combined : ℚ) : ℚ :=
  max 0.70 (min 1.0 combined)

/-- Step 10 of `calculate_sleep_quality`: effective sleep is time in bed
minus sleep onset latency, floored at zero, scaled by combined efficiency. -/
def effectiveSleepHours (actual_duration total_sol_minutes combined_efficiency : ℚ) : ℚ :=
  max 0 (actual_duration - total_sol_minutes / 60) * combined_efficiency

/-- A warning from `SleepQualityEngine._generate_sleep_warnings`; the
formatted message strings of the source are pure display text and are
modelled by the severity tag plus the numeric context. -/
inductive SleepWarning where
  | critically_insufficient (effective_sleep : ℚ)
  | insufficient (effective_sleep : ℚ)
  | below_optimal (effective_sleep : ℚ)
  | wocl_misalignment (wocl_overlap : ℚ)
  | short_turnaround
deriving DecidableEq

/-- `core/sleep_quality.py` `SleepQualityEngine._generate_sleep_warnings`
(`hours_until_duty` is truthiness-tested in the source, hence the `≠ 0`). -/
def generate_sleep_warnings (effective_sleep actual_duration wocl_overlap
    hours_until_duty : ℚ) (is_nap : Bool) : List SleepWarning :=
  (if ¬ is_nap then
    (if effective_sleep < 5 then [SleepWarning.critically_insufficient effective_sleep]
     else if effective_sleep < 6 then [SleepWarning.insufficient effective_sleep]
     else if effective_sleep < 7 then [SleepWarning.below_optimal effective_sleep]
     else [])
  else []) ++
  (if wocl_overlap > 2.5 ∧ effective_sleep < 6 then
    [SleepWarning.wocl_misalignment wocl_overlap]
  else []) ++
  (if hours_until_duty ≠ 0 ∧ hours_until_duty < 2 ∧ actual_duration < 5 then
    [SleepWarning.short_turnaround]
  else [])

/-- `core/sleep_quality.py` `SleepQualityAnalysis`. -/
structure SleepQualityAnalysis where
  total_sleep_hours : ℚ
  actual_sleep_hours : ℚ
  effective_sleep_hours : ℚ
  sleep_efficiency : ℚ
  base_efficiency : ℚ
  wocl_penalty : ℚ
  late_onset_penalty : ℚ
  recovery_boost : ℚ
  time_pressure_factor : ℚ
  insufficient_penalty : ℚ
  sleep_onset_latency_minutes : ℚ
  first_night_extra_minutes : ℚ
  is_first_night : Bool
  is_second_night : Bool
  nap_efficiency_modifier : ℚ
  nap_duration_band : String
  alarm_anxiety_factor : ℚ
  wocl_overlap_hours : ℚ
  sleep_start_hour : ℚ
  hours_since_duty : Option ℚ
  hours_until_duty : ℚ
  warnings : List SleepWarning

/-- `core/sleep_quality.py` `SleepQualityEngine.calculate_sleep_quality`.
Arguments follow the Python signature; `cosine` abstracts `math.cos` as in
`calculate_sleep_onset_latency`. -/
def calculate_sleep_quality (cosine : ℚ → ℚ) (config : SleepQualityConfig)
    (sleep_start sleep_end : DateTime) (location : String)
    (previous_duty_end : Option DateTime) (next_event : DateTime)
    (is_nap : Bool) (location_timezone : Timezone)
    (biological_timezone : Option Timezone)
    (is_first_layover_night is_second_layover_night : Bool)
    (next_report_hour : Option ℚ) (is_split_sleep : Bool)
    (split_block_min_hours : ℚ) : SleepQualityAnalysis :=
  let sq_params := config.sleep_quality_params
  -- 1. Calculate raw duration
  let total_hours : ℚ := ((sleep_end - sleep_start : Int) : ℚ) / 60
  -- 2. Apply biological sleep limit
  let actual_duration := if is_nap then total_hours else min total_hours MAX_REALISTIC_SLEEP
  -- 3. Base efficiency by location
  let base_lookup := LOCATION_EFFICIENCY location
  -- 7a. Nap efficiency by duration
  let nap_pair := if is_nap then napEfficiencyBand sq_params (total_hours * 60) else (1.0, "")
  let base_efficiency := if is_nap then base_lookup * nap_pair.1 else base_lookup
  -- 4. Circadian alignment factor (bonus only)
  let wocl_overlap := calculate_wocl_overlap config.easa_framework
    sleep_start sleep_end location_timezone biological_timezone
  let wocl_boost := woclBoost wocl_overlap actual_duration
  -- 5. Late sleep onset penalty (hour of onset in the biological timezone)
  let bio_tz_for_onset := biological_timezone.getD location_timezone
  let sleep_start_hour := localHourOfDay sleep_start bio_tz_for_onset
  let late_onset_penalty := lateOnsetPenalty sleep_start_hour
  -- 6. Recovery sleep boost
  let hours_since_duty := previous_duty_end.map
    (fun prev => ((sleep_start - prev : Int) : ℚ) / 60)
  let recovery_boost := recoveryBoostFactor hours_since_duty is_nap
  -- 7. Time pressure factor
  let hours_until_duty : ℚ := ((next_event - sleep_end : Int) : ℚ) / 60
  let time_pressure_factor := timePressureFactor hours_until_duty
  -- 8. Insufficient sleep penalty (disabled in the source)
  let insufficient_penalty := 1.0
  -- 8a. Sleep onset latency
  let sol_minutes := calculate_sleep_onset_latency cosine sq_params
    sleep_start_hour actual_duration is_nap
  -- 8b. First-night effect
  let first_night_extra := firstNightExtra sq_params
    is_first_layover_night is_second_layover_night is_nap
  let total_sol := sol_minutes + first_night_extra
  -- 8c. Anticipatory arousal
  let alarm_anxiety := alarmAnxietyFactor sq_params next_report_hour
  -- 8d. Split sleep quality differential
  let split_modifier := splitSleepModifier sq_params is_split_sleep is_nap split_block_min_hours
  -- 9. Combine all factors and clamp
  let combined_efficiency := clampEfficiency
    (base_efficiency * wocl_boost * late_onset_penalty * recovery_boost *
     time_pressure_factor * insufficient_penalty * alarm_anxiety * split_modifier)
  -- 10. Effective sleep
  let effective_sleep_hours := effectiveSleepHours actual_duration total_sol combined_efficiency
  -- 11. Warnings
  let warnings := generate_sleep_warnings effective_sleep_hours actual_duration
    wocl_overlap hours_until_duty is_nap
  { total_sleep_hours := total_hours
    actual_sleep_hours := actual_duration
    effective_sleep_hours := effective_sleep_hours
    sleep_efficiency := combined_efficiency
    base_efficiency := base_efficiency
    wocl_penalty := wocl_boost
    late_onset_penalty := late_onset_penalty
    recovery_boost := recovery_boost
    time_pressure_factor := time_pressure_factor
    insufficient_penalty := insufficient_penalty
    sleep_onset_latency_minutes := total_sol
    first_night_extra_minutes := first_night_extra
    is_first_night := is_first_layover_night
    is_second_night := is_second_layover_night
    nap_efficiency_modifier := nap_pair.1
    nap_duration_band := nap_pair.2
    alarm_anxiety_factor := alarm_anxiety
    wocl_overlap_hours := wocl_overlap
    sleep_start_hour := sleep_start_hour
    hours_since_duty := hours_since_duty
    hours_until_duty := hours_until_duty
    warnings := warnings }

/-- The duty fields read by `api/api_server.py` `_validate_duty_times`
(`models/data_models.py` `Duty` is not among the analyzed sources;
`duty_hours` is the report-to-release span in hours). -/
structure Duty where
  report_time_utc : DateTime
  release_time_utc : DateTime
  is_ulr : Bool
deriving DecidableEq

/-- `Duty.duty_hours`: span between report and release in hours. -/
def Duty.duty_hours (duty : Duty) : ℚ :=
  ((duty.release_time_utc - duty.report_time_utc : Int) : ℚ) / 60

/-- A warning string produced by `_validate_duty_times`; the formatted
hour count in the source message is carried as the numeric payload. -/
inductive TimeWarning where
  | invalid_duty_ordering
  | unusual_duty_length (hours : ℚ)
  | ulr_exceeds_discretion_limit (hours : ℚ)
  | very_short_duty (hours : ℚ)
deriving DecidableEq

/-- `api/api_server.py` `_validate_duty_times`: collect per-duty time
anomalies as warnings, never raising. -/
def validate_duty_times (duty : Duty) : List TimeWarning :=
  (if duty.report_time_utc ≥ duty.release_time_utc then
    [TimeWarning.invalid_duty_ordering]
  else []) ++
  (if duty.duty_hours > 24 ∧ ¬ duty.is_ulr then
    [TimeWarning.unusual_duty_length duty.duty_hours]
  else if duty.duty_hours > 23 ∧ duty.is_ulr then
    [TimeWarning.ulr_exceeds_discretion_limit duty.duty_hours]
  else []) ++
  (if duty.duty_hours < 0.5 then
    [TimeWarning.very_short_duty duty.duty_hours]
  else [])

/-- The duty-response fields relevant to risk and validation, from
`api/api_server.py` `_build_duty_response`. -/
structure DutyOutput where
  risk_level : String
  time_validation_warnings : List TimeWarning

/-- Modelled from the spec: the roster analysis flow of
`api/api_server.py` `analyze_roster`. The simulation step
(`BorbelyFatigueModel.simulate_roster`) is not among the analyzed sources
and is abstracted as a total per-duty performance function giving each
duty its landing performance and minimum performance; per the spec the
simulation always continues and produces best-effort output for every
duty. The zero-duty guard (`if not roster.duties: raise HTTPException`)
and the per-duty response construction are taken from the source. -/
def analyze_roster (performance : Duty → Option ℚ × Option ℚ)
    (duties : List Duty) : Except String (List DutyOutput) :=
  if duties = [] then Except.error "No duties found in roster"
  else Except.ok (duties.map (fun duty =>
    { risk_level := dutyRiskLevel (performance duty).1 (performance duty).2
      time_validation_warnings := validate_duty_times duty }))

/-! ### Shared helper lemmas -/

lemma clampEfficiency_bounds (x : ℚ) :
    0.70 ≤ clampEfficiency x ∧ clampEfficiency x ≤ 1.0 := by
  unfold clampEfficiency
  refine ⟨le_max_left _ _, max_le (by norm_num) ?_⟩
  exact le_trans (min_le_left _ _) (by norm_num)

lemma clampEfficiency_nonneg (x : ℚ) : 0 ≤ clampEfficiency x :=
  le_trans (by norm_num) (clampEfficiency_bounds x).1

lemma clampEfficiency_le_one (x : ℚ) : clampEfficiency x ≤ 1 :=
  le_trans (clampEfficiency_bounds x).2 (by norm_num)

lemma effectiveSleepHours_nonneg (A S E : ℚ) (hE : 0 ≤ E) :
    0 ≤ effectiveSleepHours A S E :=
  mul_nonneg (le_max_left _ _) hE

lemma effectiveSleepHours_le (A S E : ℚ) (hA : 0 ≤ A) (hS : 0 ≤ S) (hE : E ≤ 1) :
    effectiveSleepHours A S E ≤ A := by
  unfold effectiveSleepHours
  have h1 : max 0 (A - S / 60) ≤ A := by
    apply max_le hA
    have : 0 ≤ S / 60 := by positivity
    linarith
  calc max 0 (A - S / 60) * E ≤ max 0 (A - S / 60) :=
        mul_le_of_le_one_right (le_max_left _ _) hE
    _ ≤ A := h1

lemma calculate_sleep_onset_latency_nonneg (cosine : ℚ → ℚ)
    (sq_params : SleepQualityParameters) (h d : ℚ) (is_nap : Bool) :
    0 ≤ calculate_sleep_onset_latency cosine sq_params h d is_nap := by
  unfold calculate_sleep_onset_latency
  exact le_trans (by norm_num) (le_max_left _ _)

lemma firstNightExtra_nonneg (sq_params : SleepQualityParameters)
    (f1 f2 is_nap : Bool)
    (hfn : 0 ≤ sq_params.first_night_sol_extra_minutes)
    (hsn : 0 ≤ sq_params.second_night_sol_extra_minutes) :
    0 ≤ firstNightExtra sq_params f1 f2 is_nap := by
  unfold firstNightExtra
  split_ifs <;> first | exact hfn | exact hsn | norm_num

/-! ### C2 -/

/-- C2: for every input to `calculate_sleep_quality`, the returned
`sleep_efficiency` — the clamped product of the multiplicative quality
factors — lies in the closed interval `[0.70, 1.0]`. -/
theorem C2_sleep_efficiency_in_range (cosine : ℚ → ℚ)
    (config : SleepQualityConfig) (sleep_start sleep_end : DateTime)
    (location : String) (previous_duty_end : Option DateTime)
    (next_event : DateTime) (is_nap : Bool) (location_timezone : Timezone)
    (biological_timezone : Option Timezone)
    (is_first_layover_night is_second_layover_night : Bool)
    (next_report_hour : Option ℚ) (is_split_sleep : Bool)
    (split_block_min_hours : ℚ) :
    0.70 ≤ (calculate_sleep_quality cosine config sleep_start sleep_end
      location previous_duty_end next_event is_nap location_timezone
      biological_timezone is_first_layover_night is_second_layover_night
      next_report_hour is_split_sleep split_block_min_hours).sleep_efficiency ∧
    (calculate_sleep_quality cosine config sleep_start sleep_end
      location previous_duty_end next_event is_nap location_timezone
      biological_timezone is_first_layover_night is_second_layover_night
      next_report_hour is_split_sleep split_block_min_hours).sleep_efficiency ≤ 1.0 := by
  simp only [calculate_sleep_quality]
  exact clampEfficiency_bounds _

/-! ### C3 -/

/-- C3 counterexample: under the default configuration the nap efficiency
modifier attains its maximum in the 20-30 minute band (0.92 at 25 minutes),
strictly above the 10-20 minute band value (0.90 at 15 minutes), so the
modifier does not attain its maximum in the 10-20 minute band. -/
theorem C3_counterexample :
    (napEfficiencyBand defaultSleepQualityParameters 15).1 = 0.90 ∧
    (napEfficiencyBand defaultSleepQualityParameters 25).1 = 0.92 ∧
    ¬ (napEfficiencyBand defaultSleepQualityParameters 25).1 ≤
        (napEfficiencyBand defaultSleepQualityParameters 15).1 := by
  norm_num [napEfficiencyBand, defaultSleepQualityParameters]

/-- C3 (amended): the nap efficiency modifier is a five-band function of
nap duration (at most 10, 10-20, 20-30, 30-60, over 60 minutes) evaluating
under the default configuration to 0.75, 0.90, 0.92, 0.88 and 0.85; it is
non-monotonic in duration and attains its maximum in the 20-30 minute band. -/
theorem C3_nap_bands :
    (∀ m : ℚ, (napEfficiencyBand defaultSleepQualityParameters m).1 =
      if m ≤ 10 then 0.75 else if m ≤ 20 then 0.90 else if m ≤ 30 then 0.92
      else if m ≤ 60 then 0.88 else 0.85) ∧
    (∀ m : ℚ, (napEfficiencyBand defaultSleepQualityParameters m).1 ≤
      (napEfficiencyBand defaultSleepQualityParameters 25).1) ∧
    (napEfficiencyBand defaultSleepQualityParameters 8).1 <
      (napEfficiencyBand defaultSleepQualityParameters 15).1 ∧
    (napEfficiencyBand defaultSleepQualityParameters 15).1 <
      (napEfficiencyBand defaultSleepQualityParameters 25).1 ∧
    (napEfficiencyBand defaultSleepQualityParameters 45).1 <
      (napEfficiencyBand defaultSleepQualityParameters 25).1 ∧
    (napEfficiencyBand defaultSleepQualityParameters 90).1 <
      (napEfficiencyBand defaultSleepQualityParameters 45).1 := by
  have h25 : (napEfficiencyBand defaultSleepQualityParameters 25).1 = 0.92 := by
    norm_num [napEfficiencyBand, defaultSleepQualityParameters]
  refine ⟨?_, ?_, ?_, ?_, ?_, ?_⟩
  · intro m
    unfold napEfficiencyBand defaultSleepQualityParameters
    split_ifs <;> rfl
  · intro m
    rw [h25]
    unfold napEfficiencyBand defaultSleepQualityParameters
    split_ifs <;> norm_num
  all_goals norm_num [napEfficiencyBand, defaultSleepQualityParameters]

/-! ### C4 -/

/-- C4 counterexample: the airport-hotel environment (0.85) is not the
lowest-efficiency environment; crew-rest (0.70) is strictly lower. -/
theorem C4_counterexample :
    LOCATION_EFFICIENCY "airport_hotel" = 0.85 ∧
    LOCATION_EFFICIENCY "crew_rest" = 0.70 ∧
    ¬ LOCATION_EFFICIENCY "airport_hotel" ≤ LOCATION_EFFICIENCY "crew_rest" := by
  simp only [LOCATION_EFFICIENCY, String.reduceEq, reduceIte]
  norm_num

/-- C4 (amended): the base sleep efficiency is a pure lookup by environment
with the strict ordering home > crew-house > hotel > airport-hotel >
crew-rest, so crew-rest — not airport-hotel — is the worst environment;
for non-nap sleep the engine uses the lookup value unmodified as the base
efficiency. -/
theorem C4_location_ordering :
    LOCATION_EFFICIENCY "crew_house" < LOCATION_EFFICIENCY "home" ∧
    LOCATION_EFFICIENCY "hotel" < LOCATION_EFFICIENCY "crew_house" ∧
    LOCATION_EFFICIENCY "airport_hotel" < LOCATION_EFFICIENCY "hotel" ∧
    LOCATION_EFFICIENCY "crew_rest" < LOCATION_EFFICIENCY "airport_hotel" ∧
    (∀ (cosine : ℚ → ℚ) (config : SleepQualityConfig)
       (sleep_start sleep_end : DateTime) (location : String)
       (previous_duty_end : Option DateTime) (next_event : DateTime)
       (location_timezone : Timezone) (biological_timezone : Option Timezone)
       (f1 f2 : Bool) (next_report_hour : Option ℚ) (is_split_sleep : Bool)
       (split_block_min_hours : ℚ),
      (calculate_sleep_quality cosine config sleep_start sleep_end location
        previous_duty_end next_event false location_timezone
        biological_timezone f1 f2 next_report_hour is_split_sleep
        split_block_min_hours).base_efficiency = LOCATION_EFFICIENCY location) := by
  refine ⟨?_, ?_, ?_, ?_, ?_⟩
  · simp only [LOCATION_EFFICIENCY, String.reduceEq, reduceIte]; norm_num
  · simp only [LOCATION_EFFICIENCY, String.reduceEq, reduceIte]; norm_num
  · simp only [LOCATION_EFFICIENCY, String.reduceEq, reduceIte]; norm_num
  · simp only [LOCATION_EFFICIENCY, String.reduceEq, reduceIte]; norm_num
  · intro cosine config sleep_start sleep_end location previous_duty_end
      next_event location_timezone biological_timezone f1 f2 next_report_hour
      is_split_sleep split_block_min_hours
    rfl

/-! ### C5 -/

/-- C5: the workload model is a pure lookup: the sector multiplier is
`1 + (n - 1) * SECTOR_PENALTY_RATE`, the combined multiplier is the product
of phase and sector multipliers and is monotonically non-decreasing in the
sector number for a fixed phase, and non-flight duties use a flat constant
lookup by training subtype (simulator 1.3, ground training 0.7, otherwise
the `dict.get` default 1.0). Statelessness is by construction: the embedded
functions take only their arguments. -/
theorem C5_workload_model :
    (∀ (params : WorkloadParameters) (n : Int),
      get_sector_multiplier params n =
        1 + ((n : ℚ) - 1) * params.SECTOR_PENALTY_RATE) ∧
    (∀ (params : WorkloadParameters) (phase : FlightPhase) (n : Int),
      get_combined_multiplier params phase n =
        get_phase_multiplier params phase * get_sector_multiplier params n) ∧
    (∀ (phase : FlightPhase) (n m : Int), 1 ≤ n → n ≤ m →
      get_combined_multiplier defaultWorkloadParameters phase n ≤
        get_combined_multiplier defaultWorkloadParameters phase m) ∧
    get_training_multiplier defaultWorkloadParameters "simulator" = 1.3 ∧
    get_training_multiplier defaultWorkloadParameters "ground_training" = 0.7 ∧
    (∀ s : String, s ≠ "simulator" → s ≠ "ground_training" →
      get_training_multiplier defaultWorkloadParameters s = 1.0) := by
  refine ⟨?_, ?_, ?_, ?_, ?_, ?_⟩
  · intro params n
    norm_num [get_sector_multiplier]
  · intro params phase n
    rfl
  · intro phase n m hn hnm
    have hphase : 0 ≤ defaultWorkloadParameters.WORKLOAD_MULTIPLIERS phase := by
      cases phase <;> norm_num [defaultWorkloadParameters, defaultWorkloadMultipliers]
    have hcast : (n : ℚ) ≤ (m : ℚ) := by exact_mod_cast hnm
    unfold get_combined_multiplier get_phase_multiplier get_sector_multiplier
    apply mul_le_mul_of_nonneg_left _ hphase
    have hrate : defaultWorkloadParameters.SECTOR_PENALTY_RATE = 0.15 := rfl
    rw [hrate]
    nlinarith
  · rfl
  · rfl
  · intro s hs hg
    simp [get_training_multiplier, defaultWorkloadParameters,
      defaultTrainingWorkload, hs, hg]

/-- C5 witness: the theorem instantiated at phase `landing`, sectors 2 and 5,
and an unknown training subtype. -/
theorem C5_workload_model_witness :
    ((1 : Int) ≤ 2 ∧ (2 : Int) ≤ 5 ∧
      get_combined_multiplier defaultWorkloadParameters FlightPhase.landing 2 ≤
        get_combined_multiplier defaultWorkloadParameters FlightPhase.landing 5) ∧
    ("line_check" ≠ "simulator" ∧ "line_check" ≠ "ground_training" ∧
      get_training_multiplier defaultWorkloadParameters "line_check" = 1.0) :=
  ⟨⟨by norm_num, by norm_num,
    C5_workload_model.2.2.1 FlightPhase.landing 2 5 (by norm_num) (by norm_num)⟩,
   ⟨by decide, by decide,
    C5_workload_model.2.2.2.2.2 "line_check" (by decide) (by decide)⟩⟩

/-! ### C9 -/

/-- C9: a pinch event is flagged if and only if the circadian component is
below the configured low-alertness threshold (default 0.40) and
simultaneously the homeostatic pressure is above the configured
high-pressure threshold (default 0.70); neither condition alone produces a
pinch event. -/
theorem C9_pinch_conjunctive :
    (∀ (params : BorbelyParameters) (c s : ℚ),
      isPinchEvent params c s = true ↔
        (c < params.pinch_circadian_threshold ∧
         s > params.pinch_sleep_pressure_threshold)) ∧
    defaultBorbelyParameters.pinch_circadian_threshold = 0.40 ∧
    defaultBorbelyParameters.pinch_sleep_pressure_threshold = 0.70 ∧
    isPinchEvent defaultBorbelyParameters 0.30 0.50 = false ∧
    isPinchEvent defaultBorbelyParameters 0.80 0.90 = false ∧
    isPinchEvent defaultBorbelyParameters 0.30 0.90 = true := by
  have hiff : ∀ (params : BorbelyParameters) (c s : ℚ),
      isPinchEvent params c s = true ↔
        (c < params.pinch_circadian_threshold ∧
         s > params.pinch_sleep_pressure_threshold) := by
    intro params c s
    simp [isPinchEvent]
  refine ⟨hiff, rfl, rfl, ?_, ?_, ?_⟩
  · rw [Bool.eq_false_iff, Ne, hiff]
    norm_num [defaultBorbelyParameters]
  · rw [Bool.eq_false_iff, Ne, hiff]
    norm_num [defaultBorbelyParameters]
  · rw [hiff]
    norm_num [defaultBorbelyParameters]

/-! ### C10 -/

/-- C10 counterexample: at the boundary performance 100 the API helper
returns `low` (its bands are closed above) while the default
`RiskThresholds.classify` falls through its half-open bands and returns
`extreme`, so the two classifiers are not extensionally equivalent. -/
theorem C10_counterexample :
    classify_risk (some 100) = "low" ∧
    RiskThresholds.classify defaultRiskThresholds (some 100) = "extreme" ∧
    ("low" : String) ≠ "extreme" := by
  refine ⟨?_, ?_, by decide⟩
  · norm_num [classify_risk]
  · norm_num [RiskThresholds.classify, defaultRiskThresholds, classifyBands]

/-- C10 (amended): `classify_risk` and the default-preset
`RiskThresholds.classify` agree on `None` and on every performance value
below 100, but diverge at every value at least 100, where `classify_risk`
returns `low` while `RiskThresholds.classify` returns `extreme`. -/
theorem C10_classifier_agreement (p : ℚ) :
    classify_risk none = RiskThresholds.classify defaultRiskThresholds none ∧
    (p < 100 →
      classify_risk (some p) =
        RiskThresholds.classify defaultRiskThresholds (some p)) ∧
    (100 ≤ p →
      classify_risk (some p) = "low" ∧
        RiskThresholds.classify defaultRiskThresholds (some p) = "extreme") := by
  refine ⟨rfl, ?_, ?_⟩
  · intro hp
    by_cases h75 : (75 : ℚ) ≤ p
    · simp [classify_risk, RiskThresholds.classify, defaultRiskThresholds,
        classifyBands, h75, hp]
    · by_cases h65 : (65 : ℚ) ≤ p
      · have h75lt : p < 75 := not_le.mp h75
        simp [classify_risk, RiskThresholds.classify, defaultRiskThresholds,
          classifyBands, h65, h75, h75lt]
      · by_cases h55 : (55 : ℚ) ≤ p
        · have h65lt : p < 65 := not_le.mp h65
          simp [classify_risk, RiskThresholds.classify, defaultRiskThresholds,
            classifyBands, h55, h65, h75, h65lt]
        · by_cases h45 : (45 : ℚ) ≤ p
          · have h55lt : p < 55 := not_le.mp h55
            simp [classify_risk, RiskThresholds.classify, defaultRiskThresholds,
              classifyBands, h45, h55, h65, h75, h55lt]
          · have h45lt : p < 45 := not_le.mp h45
            by_cases h0 : (0 : ℚ) ≤ p
            · simp [classify_risk, RiskThresholds.classify, defaultRiskThresholds,
                classifyBands, h0, h45, h55, h65, h75, h45lt]
            · simp [classify_risk, RiskThresholds.classify, defaultRiskThresholds,
                classifyBands, h0, h45, h55, h65, h75]
  · intro hp
    have h75 : (75 : ℚ) ≤ p := by linarith
    have h100 : ¬ p < 100 := not_lt.mpr hp
    have h75n : ¬ p < 75 := by linarith
    have h65n : ¬ p < 65 := by linarith
    have h55n : ¬ p < 55 := by linarith
    have h45n : ¬ p < 45 := by linarith
    constructor
    · simp [classify_risk, h75]
    · simp [RiskThresholds.classify, defaultRiskThresholds, classifyBands,
        h100, h75n, h65n, h55n, h45n]

/-- C10 witness: agreement below the boundary (performance 50) and
divergence at the boundary (performance 100). -/
theorem C10_classifier_agreement_witness :
    ((50 : ℚ) < 100 ∧
      classify_risk (some 50) =
        RiskThresholds.classify defaultRiskThresholds (some 50)) ∧
    ((100 : ℚ) ≤ 100 ∧
      classify_risk (some 100) = "low" ∧
        RiskThresholds.classify defaultRiskThresholds (some 100) = "extreme") :=
  ⟨⟨by norm_num, (C10_classifier_agreement 50).2.1 (by norm_num)⟩,
   ⟨by norm_num, (C10_classifier_agreement 100).2.2 (by norm_num)⟩⟩

/-! ### C7 -/

/-- C7 counterexample: the duty response classifies performance 77 as `low`
through the hard-coded default bands of `classify_risk`, while the
conservative preset's `RiskThresholds.classify` yields `moderate`; the
reported duty risk therefore does not follow the active preset's bands. -/
theorem C7_counterexample :
    dutyRiskLevel (some 77) none = "low" ∧
    RiskThresholds.classify conservativeRiskThresholds (some 77) = "moderate" ∧
    ("low" : String) ≠ "moderate" := by
  refine ⟨?_, ?_, by decide⟩
  · norm_num [dutyRiskLevel, classify_risk]
  · norm_num [RiskThresholds.classify, conservativeRiskThresholds, classifyBands]

/-- C7 (amended): the risk level in a duty's output is its landing
performance — or its minimum performance when no landing performance
exists — mapped through the fixed hard-coded bands of `classify_risk`
(low at 75 and above, moderate at 65, high at 55, critical at 45,
otherwise extreme; `unknown` for a missing value), independent of the
active configuration preset. -/
theorem C7_duty_risk_fixed_bands :
    (∀ landing_performance min_performance : Option ℚ,
      dutyRiskLevel landing_performance min_performance =
        classify_risk (match landing_performance with
          | some v => some v
          | none => min_performance)) ∧
    (∀ min_performance : Option ℚ,
      dutyRiskLevel none min_performance = classify_risk min_performance) ∧
    (∀ (v : ℚ) (min_performance : Option ℚ),
      (75 ≤ v → dutyRiskLevel (some v) min_performance = "low") ∧
      (65 ≤ v → v < 75 → dutyRiskLevel (some v) min_performance = "moderate") ∧
      (55 ≤ v → v < 65 → dutyRiskLevel (some v) min_performance = "high") ∧
      (45 ≤ v → v < 55 → dutyRiskLevel (some v) min_performance = "critical") ∧
      (v < 45 → dutyRiskLevel (some v) min_performance = "extreme")) ∧
    classify_risk none = "unknown" := by
  refine ⟨fun _ _ => rfl, fun _ => rfl, ?_, rfl⟩
  intro v min_performance
  refine ⟨?_, ?_, ?_, ?_, ?_⟩
  · intro h75
    simp [dutyRiskLevel, classify_risk, h75]
  · intro h65 h75
    have h75n : ¬ (75 : ℚ) ≤ v := not_le.mpr h75
    simp [dutyRiskLevel, classify_risk, h65, h75n]
  · intro h55 h65
    have h75n : ¬ (75 : ℚ) ≤ v := by linarith
    have h65n : ¬ (65 : ℚ) ≤ v := not_le.mpr h65
    simp [dutyRiskLevel, classify_risk, h55, h65n, h75n]
  · intro h45 h55
    have h75n : ¬ (75 : ℚ) ≤ v := by linarith
    have h65n : ¬ (65 : ℚ) ≤ v := by linarith
    have h55n : ¬ (55 : ℚ) ≤ v := not_le.mpr h55
    simp [dutyRiskLevel, classify_risk, h45, h55n, h65n, h75n]
  · intro h45
    have h75n : ¬ (75 : ℚ) ≤ v := by linarith
    have h65n : ¬ (65 : ℚ) ≤ v := by linarith
    have h55n : ¬ (55 : ℚ) ≤ v := by linarith
    have h45n : ¬ (45 : ℚ) ≤ v := not_le.mpr h45
    simp [dutyRiskLevel, classify_risk, h45n, h55n, h65n, h75n]

/-- C7 witness: the band characterization applied at concrete performance
values 77 (low), 70 (moderate) and 40 (extreme). -/
theorem C7_duty_risk_fixed_bands_witness :
    ((75 : ℚ) ≤ 77 ∧ dutyRiskLevel (some 77) none = "low") ∧
    ((65 : ℚ) ≤ 70 ∧ (70 : ℚ) < 75 ∧
      dutyRiskLevel (some 70) (some 50) = "moderate") ∧
    ((40 : ℚ) < 45 ∧ dutyRiskLevel (some 40) none = "extreme") :=
  ⟨⟨by norm_num, (C7_duty_risk_fixed_bands.2.2.1 77 none).1 (by norm_num)⟩,
   ⟨by norm_num, by norm_num,
    (C7_duty_risk_fixed_bands.2.2.1 70 (some 50)).2.1 (by norm_num) (by norm_num)⟩,
   ⟨by norm_num, (C7_duty_risk_fixed_bands.2.2.1 40 none).2.2.2.2 (by norm_num)⟩⟩

/-! ### C8 -/

/-- C8: the analysis fails exactly when the roster has zero duties; for a
non-empty roster it produces one output per duty, and a duty whose report
time is at or after its release time gets the invalid-ordering warning
attached to its own output while the analysis still succeeds. -/
theorem C8_roster_validation
    (performance : Duty → Option ℚ × Option ℚ) (duties : List Duty) :
    ((∃ msg, analyze_roster performance duties = Except.error msg) ↔
      duties = []) ∧
    (∀ outs, analyze_roster performance duties = Except.ok outs →
      outs.length = duties.length) ∧
    (∀ (i : ℕ) (hi : i < duties.length),
      (duties.get ⟨i, hi⟩).report_time_utc ≥
          (duties.get ⟨i, hi⟩).release_time_utc →
      ∃ outs, analyze_roster performance duties = Except.ok outs ∧
        ∃ hj : i < outs.length,
          TimeWarning.invalid_duty_ordering ∈
            (outs.get ⟨i, hj⟩).time_validation_warnings) := by
  by_cases hd : duties = []
  · subst hd
    refine ⟨⟨fun _ => rfl, fun _ => ⟨"No duties found in roster", rfl⟩⟩, ?_, ?_⟩
    · intro outs h
      simp [analyze_roster] at h
    · intro i hi
      simp at hi
  · refine ⟨⟨?_, fun h => absurd h hd⟩, ?_, ?_⟩
    · rintro ⟨msg, hmsg⟩
      simp [analyze_roster, hd] at hmsg
    · intro outs h
      simp only [analyze_roster, if_neg hd, Except.ok.injEq] at h
      subst h
      simp
    · intro i hi hrep
      refine ⟨duties.map (fun duty =>
          ({ risk_level := dutyRiskLevel (performance duty).1 (performance duty).2
             time_validation_warnings := validate_duty_times duty } : DutyOutput)),
        by simp only [analyze_roster, if_neg hd], ?_, ?_⟩
      · simpa using hi
      · have hget : ((duties.map (fun duty =>
            ({ risk_level := dutyRiskLevel (performance duty).1 (performance duty).2
               time_validation_warnings := validate_duty_times duty } : DutyOutput))).get
              ⟨i, by simpa using hi⟩).time_validation_warnings =
            validate_duty_times (duties.get ⟨i, hi⟩) := by
          simp
        rw [hget]
        unfold validate_duty_times
        rw [if_pos hrep]
        simp

/-- C8 witness: a one-duty roster whose duty reports at or after release
still analyzes successfully and carries the invalid-ordering warning. -/
theorem C8_roster_validation_witness :
    ∃ outs, analyze_roster (fun _ => (some 80, none))
        [{ report_time_utc := 600, release_time_utc := 540, is_ulr := false }] =
          Except.ok outs ∧
      ∃ hj : 0 < outs.length,
        TimeWarning.invalid_duty_ordering ∈
          (outs.get ⟨0, hj⟩).time_validation_warnings :=
  (C8_roster_validation (fun _ => (some 80, none))
      [{ report_time_utc := 600, release_time_utc := 540, is_ulr := false }]).2.2
    0 (by norm_num) (by norm_num [List.get])

/-! ### C1 -/

/-- C1 counterexample: for a degenerate window whose end precedes its start
(here end one hour before start), `actual_sleep_hours` is the negative raw
duration (-1) while `effective_sleep_hours` is floored at zero, so the
returned effective sleep strictly exceeds the returned actual sleep. -/
theorem C1_counterexample :
    ¬ ((calculate_sleep_quality (fun _ => 0) defaultSleepQualityConfig
          600 540 "home" none 1980 false 0 none false false none false
          0).effective_sleep_hours ≤
        (calculate_sleep_quality (fun _ => 0) defaultSleepQualityConfig
          600 540 "home" none 1980 false 0 none false false none false
          0).actual_sleep_hours) := by
  intro hle
  have hA : (calculate_sleep_quality (fun _ => 0) defaultSleepQualityConfig
      600 540 "home" none 1980 false 0 none false false none false
      0).actual_sleep_hours = -1 := by
    norm_num [calculate_sleep_quality, MAX_REALISTIC_SLEEP, min_def]
  have hE : 0 ≤ (calculate_sleep_quality (fun _ => 0) defaultSleepQualityConfig
      600 540 "home" none 1980 false 0 none false false none false
      0).effective_sleep_hours := by
    simp only [calculate_sleep_quality]
    exact effectiveSleepHours_nonneg _ _ _ (clampEfficiency_nonneg _)
  linarith

/-- C1 (amended): for every sleep window whose end is not before its start
(and any location, nap or not, under any configuration with non-negative
first-night and second-night latency extras, as in every preset), the
returned `effective_sleep_hours` is at most the returned
`actual_sleep_hours`. -/
theorem C1_effective_le_actual (cosine : ℚ → ℚ)
    (config : SleepQualityConfig) (sleep_start sleep_end : DateTime)
    (location : String) (previous_duty_end : Option DateTime)
    (next_event : DateTime) (is_nap : Bool) (location_timezone : Timezone)
    (biological_timezone : Option Timezone)
    (is_first_layover_night is_second_layover_night : Bool)
    (next_report_hour : Option ℚ) (is_split_sleep : Bool)
    (split_block_min_hours : ℚ)
    (hfn : 0 ≤ config.sleep_quality_params.first_night_sol_extra_minutes)
    (hsn : 0 ≤ config.sleep_quality_params.second_night_sol_extra_minutes)
    (hwin : sleep_start ≤ sleep_end) :
    (calculate_sleep_quality cosine config sleep_start sleep_end location
      previous_duty_end next_event is_nap location_timezone
      biological_timezone is_first_layover_night is_second_layover_night
      next_report_hour is_split_sleep
      split_block_min_hours).effective_sleep_hours ≤
    (calculate_sleep_quality cosine config sleep_start sleep_end location
      previous_duty_end next_event is_nap location_timezone
      biological_timezone is_first_layover_night is_second_layover_night
      next_report_hour is_split_sleep
      split_block_min_hours).actual_sleep_hours := by
  have hT : (0 : ℚ) ≤ ((sleep_end - sleep_start : Int) : ℚ) / 60 := by
    apply div_nonneg _ (by norm_num)
    exact_mod_cast Int.sub_nonneg.mpr hwin
  have hA : (0 : ℚ) ≤ (if is_nap then ((sleep_end - sleep_start : Int) : ℚ) / 60
      else min (((sleep_end - sleep_start : Int) : ℚ) / 60) MAX_REALISTIC_SLEEP) := by
    by_cases hnap : is_nap
    · simpa [hnap] using hT
    · simp only [hnap, if_false, Bool.false_eq_true]
      exact le_min hT (by norm_num [MAX_REALISTIC_SLEEP])
  have hS : (0 : ℚ) ≤ calculate_sleep_onset_latency cosine
        config.sleep_quality_params
        (localHourOfDay sleep_start (biological_timezone.getD location_timezone))
        (if is_nap then ((sleep_end - sleep_start : Int) : ℚ) / 60
         else min (((sleep_end - sleep_start : Int) : ℚ) / 60) MAX_REALISTIC_SLEEP)
        is_nap +
      firstNightExtra config.sleep_quality_params is_first_layover_night
        is_second_layover_night is_nap :=
    add_nonneg (calculate_sleep_onset_latency_nonneg _ _ _ _ _)
      (firstNightExtra_nonneg _ _ _ _ hfn hsn)
  simp only [calculate_sleep_quality]
  exact effectiveSleepHours_le _ _ _ hA hS (clampEfficiency_le_one _)

/-- C1 witness: an eight-hour home sleep window under the default
configuration. -/
theorem C1_effective_le_actual_witness :
    0 ≤ defaultSleepQualityConfig.sleep_quality_params.first_night_sol_extra_minutes ∧
    0 ≤ defaultSleepQualityConfig.sleep_quality_params.second_night_sol_extra_minutes ∧
    (0 : Int) ≤ 480 ∧
    (calculate_sleep_quality (fun _ => 0) defaultSleepQualityConfig 0 480
      "home" none 600 false 0 none false false none false
      0).effective_sleep_hours ≤
    (calculate_sleep_quality (fun _ => 0) defaultSleepQualityConfig 0 480
      "home" none 600 false 0 none false false none false
      0).actual_sleep_hours :=
  ⟨by norm_num [defaultSleepQualityConfig, defaultSleepQualityParameters],
   by norm_num [defaultSleepQualityConfig, defaultSleepQualityParameters],
   by norm_num,
   C1_effective_le_actual (fun _ => 0) defaultSleepQualityConfig 0 480
     "home" none 600 false 0 none false false none false 0
     (by norm_num [defaultSleepQualityConfig, defaultSleepQualityParameters])
     (by norm_num [defaultSleepQualityConfig, defaultSleepQualityParameters])
     (by norm_num)⟩

/-! ### C6 -/

lemma overlap_clip_lt_one (sh eh c d : ℚ) (h : eh - sh ≤ 1/2) :
    max 0 (min eh c - max sh d) < 1 := by
  apply max_lt (by norm_num)
  have h1 := min_le_left eh c
  have h2 := le_max_left sh d
  linarith

/-- A window of at most 30 minutes always computes strictly less than one
hour of WOCL overlap (under the default 02:00 to 06:00 WOCL window). -/
lemma wocl_overlap_lt_one_of_short (sleep_start sleep_end : Int)
    (location_timezone : Int) (biological_timezone : Option Int)
    (h0 : sleep_start ≤ sleep_end) (h1 : sleep_end - sleep_start ≤ 30) :
    calculate_wocl_overlap defaultEASAFramework sleep_start sleep_end
      location_timezone biological_timezone < 1 := by
  simp only [calculate_wocl_overlap, localHourOfDay, localDate,
    defaultEASAFramework, Int.cast_ofNat]
  generalize biological_timezone.getD location_timezone = tz
  have hkey : ((sleep_end + tz) % 1440 =
        (sleep_start + tz) % 1440 + (sleep_end - sleep_start) ∧
      (sleep_end + tz) / 1440 = (sleep_start + tz) / 1440) ∨
      ((sleep_end + tz) % 1440 =
        (sleep_start + tz) % 1440 + (sleep_end - sleep_start) - 1440 ∧
      (sleep_end + tz) / 1440 = (sleep_start + tz) / 1440 + 1) := by
    omega
  have hb0 : 0 ≤ (sleep_end + tz) % 1440 := by omega
  have hb1 : (sleep_end + tz) % 1440 < 1440 := by omega
  have ha0 : 0 ≤ (sleep_start + tz) % 1440 := by omega
  have ha1 : (sleep_start + tz) % 1440 < 1440 := by omega
  set a := (sleep_start + tz) % 1440 with ha
  set b := (sleep_end + tz) % 1440 with hb
  clear_value a b
  rcases hkey with ⟨hm, hd⟩ | ⟨hm, hd⟩
  · -- the window does not cross a local midnight
    rw [if_neg]
    · split_ifs with hcond
      · apply overlap_clip_lt_one
        have hba : (b : ℚ) - (a : ℚ) ≤ 30 := by
          have hint : b - a ≤ 30 := by omega
          exact_mod_cast hint
        linarith
      · norm_num
    · push_neg
      constructor
      · have hint : a ≤ b := by omega
        have hq : (a : ℚ) ≤ (b : ℚ) := by exact_mod_cast hint
        linarith
      · rw [hd]
  · -- the window crosses a local midnight
    have ha1410 : 1410 ≤ a := by omega
    have hb30 : b ≤ 30 := by omega
    rw [if_pos]
    · have haq : (1410 : ℚ) ≤ (a : ℚ) := by exact_mod_cast ha1410
      have hbq : (b : ℚ) ≤ 30 := by exact_mod_cast hb30
      rw [if_neg, if_neg]
      · norm_num
      · rw [not_lt]
        linarith
      · rw [not_lt]
        linarith
    · right
      rw [hd]
      exact lt_add_one _

/-- At least one computed hour of WOCL overlap forces the capped sleep
duration used by the WOCL bonus condition above half an hour. -/
lemma actual_duration_gt_half (sleep_start sleep_end : Int)
    (location_timezone : Int) (biological_timezone : Option Int)
    (is_nap : Bool) (h0 : sleep_start ≤ sleep_end)
    (hov : 1 ≤ calculate_wocl_overlap defaultEASAFramework sleep_start
      sleep_end location_timezone biological_timezone) :
    (0.5 : ℚ) < (if is_nap then ((sleep_end - sleep_start : Int) : ℚ) / 60
      else min (((sleep_end - sleep_start : Int) : ℚ) / 60) MAX_REALISTIC_SLEEP) := by
  by_contra hle
  push_neg at hle
  have hT : ((sleep_end - sleep_start : Int) : ℚ) / 60 ≤ 0.5 := by
    by_cases hnap : is_nap
    · simpa [hnap] using hle
    · simp only [hnap, Bool.false_eq_true, if_false] at hle
      by_contra hT2
      push_neg at hT2
      have : (0.5 : ℚ) < min (((sleep_end - sleep_start : Int) : ℚ) / 60)
          MAX_REALISTIC_SLEEP :=
        lt_min hT2 (by norm_num [MAX_REALISTIC_SLEEP])
      linarith
  have hle30 : sleep_end - sleep_start ≤ 30 := by
    have hq : ((sleep_end - sleep_start : Int) : ℚ) ≤ 30 := by linarith
    exact_mod_cast hq
  have hlt := wocl_overlap_lt_one_of_short sleep_start sleep_end
    location_timezone biological_timezone h0 hle30
  linarith

lemma woclBoost_ge_one (ov ad : ℚ) : 1 ≤ woclBoost ov ad := by
  unfold woclBoost
  split_ifs <;> norm_num

/-- Characterization of the WOCL bonus when one computed hour of overlap
guarantees the duration condition. -/
lemma woclBoost_cases (ov ad : ℚ) (himp : 1 ≤ ov → (0.5 : ℚ) < ad) :
    (woclBoost ov ad = 1.05 ↔ 2 ≤ ov) ∧
    (woclBoost ov ad = 1.02 ↔ (1 ≤ ov ∧ ov < 2)) ∧
    (woclBoost ov ad = 1 ↔ ov < 1) := by
  unfold woclBoost
  split_ifs with hA hB
  · obtain ⟨hA1, hA2⟩ := hA
    refine ⟨⟨fun _ => hA1, fun _ => rfl⟩, ?_, ?_⟩
    · constructor
      · intro h; exfalso; norm_num at h
      · rintro ⟨_, hlt⟩; exact absurd hA1 (not_le.mpr hlt)
    · constructor
      · intro h; exfalso; norm_num at h
      · intro h; exfalso; linarith
  · obtain ⟨hB1, hB2⟩ := hB
    have hlt2 : ov < 2 := by
      by_contra hge
      push_neg at hge
      exact hA ⟨hge, hB2⟩
    refine ⟨?_, ⟨fun _ => ⟨hB1, hlt2⟩, fun _ => rfl⟩, ?_⟩
    · constructor
      · intro h; exfalso; norm_num at h
      · intro h; exfalso; linarith
    · constructor
      · intro h; exfalso; norm_num at h
      · intro h; exfalso; linarith
  · have hlt1 : ov < 1 := by
      by_contra hge
      push_neg at hge
      exact hB ⟨hge, himp hge⟩
    refine ⟨?_, ?_, ⟨fun _ => hlt1, fun _ => by norm_num⟩⟩
    · constructor
      · intro h; exfalso; norm_num at h
      · intro h; exfalso; linarith
    · constructor
      · intro h; exfalso; norm_num at h
      · rintro ⟨hge, _⟩; exfalso; linarith

/-- C6: for well-formed sleep windows (end not before start) under the
default EASA WOCL window, the returned WOCL factor is exactly 1.05 when the
computed overlap with 02:00 to 06:00 biological time is at least two hours,
exactly 1.02 when it is at least one hour but under two, and exactly 1.0
otherwise; and for every input whatsoever the factor is at least 1.0
(a one-sided bonus, never a penalty). -/
theorem C6_wocl_factor :
    (∀ (cosine : ℚ → ℚ) (config : SleepQualityConfig)
       (sleep_start sleep_end : DateTime) (location : String)
       (previous_duty_end : Option DateTime) (next_event : DateTime)
       (is_nap : Bool) (location_timezone : Timezone)
       (biological_timezone : Option Timezone) (f1 f2 : Bool)
       (next_report_hour : Option ℚ) (is_split_sleep : Bool)
       (split_block_min_hours : ℚ),
      1 ≤ (calculate_sleep_quality cosine config sleep_start sleep_end
        location previous_duty_end next_event is_nap location_timezone
        biological_timezone f1 f2 next_report_hour is_split_sleep
        split_block_min_hours).wocl_penalty) ∧
    (∀ (cosine : ℚ → ℚ) (sqp : SleepQualityParameters)
       (sleep_start sleep_end : Int) (location : String)
       (previous_duty_end : Option DateTime) (next_event : DateTime)
       (is_nap : Bool) (location_timezone : Int)
       (biological_timezone : Option Int) (f1 f2 : Bool)
       (next_report_hour : Option ℚ) (is_split_sleep : Bool)
       (split_block_min_hours : ℚ),
      sleep_start ≤ sleep_end →
      ((calculate_sleep_quality cosine
          (SleepQualityConfig.mk defaultEASAFramework sqp) sleep_start
          sleep_end location previous_duty_end next_event is_nap
          location_timezone biological_timezone f1 f2 next_report_hour
          is_split_sleep split_block_min_hours).wocl_penalty = 1.05 ↔
        2 ≤ (calculate_sleep_quality cosine
          (SleepQualityConfig.mk defaultEASAFramework sqp) sleep_start
          sleep_end location previous_duty_end next_event is_nap
          location_timezone biological_timezone f1 f2 next_report_hour
          is_split_sleep split_block_min_hours).wocl_overlap_hours) ∧
      ((calculate_sleep_quality cosine
          (SleepQualityConfig.mk defaultEASAFramework sqp) sleep_start
          sleep_end location previous_duty_end next_event is_nap
          location_timezone biological_timezone f1 f2 next_report_hour
          is_split_sleep split_block_min_hours).wocl_penalty = 1.02 ↔
        (1 ≤ (calculate_sleep_quality cosine
          (SleepQualityConfig.mk defaultEASAFramework sqp) sleep_start
          sleep_end location previous_duty_end next_event is_nap
          location_timezone biological_timezone f1 f2 next_report_hour
          is_split_sleep split_block_min_hours).wocl_overlap_hours ∧
         (calculate_sleep_quality cosine
          (SleepQualityConfig.mk defaultEASAFramework sqp) sleep_start
          sleep_end location previous_duty_end next_event is_nap
          location_timezone biological_timezone f1 f2 next_report_hour
          is_split_sleep split_block_min_hours).wocl_overlap_hours < 2)) ∧
      ((calculate_sleep_quality cosine
          (SleepQualityConfig.mk defaultEASAFramework sqp) sleep_start
          sleep_end location previous_duty_end next_event is_nap
          location_timezone biological_timezone f1 f2 next_report_hour
          is_split_sleep split_block_min_hours).wocl_penalty = 1 ↔
        (calculate_sleep_quality cosine
          (SleepQualityConfig.mk defaultEASAFramework sqp) sleep_start
          sleep_end location previous_duty_end next_event is_nap
          location_timezone biological_timezone f1 f2 next_report_hour
          is_split_sleep split_block_min_hours).wocl_overlap_hours < 1)) := by
  constructor
  · intro cosine config sleep_start sleep_end location previous_duty_end
      next_event is_nap location_timezone biological_timezone f1 f2
      next_report_hour is_split_sleep split_block_min_hours
    simp only [calculate_sleep_quality]
    exact woclBoost_ge_one _ _
  · intro cosine sqp sleep_start sleep_end location previous_duty_end
      next_event is_nap location_timezone biological_timezone f1 f2
      next_report_hour is_split_sleep split_block_min_hours hwin
    have himp : 1 ≤ calculate_wocl_overlap defaultEASAFramework sleep_start
        sleep_end location_timezone biological_timezone →
        (0.5 : ℚ) < (if is_nap then ((sleep_end - sleep_start : Int) : ℚ) / 60
          else min (((sleep_end - sleep_start : Int) : ℚ) / 60)
            MAX_REALISTIC_SLEEP) :=
      fun hov => actual_duration_gt_half sleep_start sleep_end
        location_timezone biological_timezone is_nap hwin hov
    have h := woclBoost_cases
      (calculate_wocl_overlap defaultEASAFramework sleep_start sleep_end
        location_timezone biological_timezone)
      (if is_nap then ((sleep_end - sleep_start : Int) : ℚ) / 60
       else min (((sleep_end - sleep_start : Int) : ℚ) / 60)
         MAX_REALISTIC_SLEEP) himp
    simp only [calculate_sleep_quality]
    exact h

/-- C6 witness: a four-hour window from 01:00 to 05:00 local time overlaps
the WOCL by three hours and receives the 1.05 factor. -/
theorem C6_wocl_factor_witness :
    (60 : Int) ≤ 300 ∧
    ((calculate_sleep_quality (fun _ => 0)
        (SleepQualityConfig.mk defaultEASAFramework defaultSleepQualityParameters)
        60 300 "home" none 600 false 0 none false false none false
        0).wocl_penalty = 1.05 ↔
      2 ≤ (calculate_sleep_quality (fun _ => 0)
        (SleepQualityConfig.mk defaultEASAFramework defaultSleepQualityParameters)
        60 300 "home" none 600 false 0 none false false none false
        0).wocl_overlap_hours) :=
  ⟨by norm_num,
   (C6_wocl_factor.2 (fun _ => 0) defaultSleepQualityParameters 60 300
     "home" none 600 false 0 none false false none false 0 (by norm_num)).1⟩

end Aerowake
